import Mathlib

/-!
Verification of `sae_lens/training/sparse_autoencoder.py`.

A shallow embedding of the sparse-autoencoder model classes
(`SparseAutoencoderBase`, `TrainingSparseAutoencoder`) from
`src/sae_lens/training/sparse_autoencoder.py`, followed by theorems settling
the specification claims about them.

Modelling conventions:
* tensors are functions `Fin n → ℝ` / `Fin m → Fin n → ℝ`; the leading `...`
  batch dimensions of the source are modelled as a single batch axis `Fin B`;
* `torch.norm` (L2) is `l2norm`; `Tensor.norm(p=p, dim=-1)` is `lpNorm p`;
* dtype casts (`x.to(self.dtype)`) are the identity on ℝ and dtype/device
  objects are carried as strings;
* the four `HookPoint`s are pure pass-throughs (identity) in the default
  configuration of the source, so they are omitted from the value-level embedding;
* `torch.randn_like` draws are passed in explicitly as an argument `eps`, so
  stochastic code is a deterministic function of the draw;
* `Tensor.detach()` does not change the value of a tensor, only its autograd
  graph, so at the value level it is the identity;
* Python attribute access on an attribute that is never assigned
  (`self.cfg` in `get_config_dict`) raises `AttributeError`; fallible paths
  are embedded as `Except String`.
-/

namespace SAELens

noncomputable section

/-- L2 norm of a vector, `torch.norm(v)` / `v.norm(dim=-1)`. -/
def l2norm {n : ℕ} (v : Fin n → ℝ) : ℝ :=
  Real.sqrt (∑ j, v j ^ 2)

/-- Embeds `v.norm(p=p, dim=-1)`: the p-norm `(∑ |v_j|^p)^(1/p)` with real `p`. -/
def lpNorm {n : ℕ} (p : ℝ) (v : Fin n → ℝ) : ℝ :=
  (∑ j, |v j| ^ p) ^ (1 / p)

/-- Number of `true` entries of a boolean mask: `mask.sum()` for a torch
boolean tensor. -/
def maskSum {n : ℕ} (m : Fin n → Bool) : ℕ :=
  ∑ i, if m i then 1 else 0

/-- Name of the default conversion loader in `from_pretrained`. -/
def saeLensLoaderName : String := "sae_lens"

/-- The `mse_loss_normalization` mode that divides by the centered-target
norm. -/
def denseBatchMode : String := "dense_batch"

/-- Default `dataset_path` argument of `SparseAutoencoderBase.__init__`. -/
def datasetUnknown : String := "unknown"

/-- Message of the `AttributeError` raised by `get_config_dict` when it
reads the never-assigned attribute `self.cfg`. -/
def cfgAttributeErrorMsg : String :=
  "AttributeError: SparseAutoencoderBase object has no attribute cfg"

/-- Message of the failed `assert self.W_dec.grad is not None`. -/
def gradAssertionErrorMsg : String :=
  "AssertionError: self.W_dec.grad is None"

/-- Lookup-error message of `from_pretrained` for an unknown release. -/
def releaseNotFoundMsg (release : String) : String :=
  "Release " ++ release ++ " not found in pretrained SAEs directory."

/-- Lookup-error message of `from_pretrained` for an unknown SAE id. -/
def idNotFoundMsg (sae_id release : String) : String :=
  "ID " ++ sae_id ++ " not found in release " ++ release ++ "."

/-- Lookup-error message of `from_pretrained` for an unregistered
conversion loader. -/
def conversionNotFoundMsg (loader : String) : String :=
  "Conversion func " ++ loader ++ " not found in NAMED_PRETRAINED_SAE_LOADERS."

/-- The fields of `LanguageModelSAERunnerConfig` (from
`sae_lens/training/config.py`, outside the embedded file) that
`TrainingSparseAutoencoder.__init__` reads. Only the fields the embedded
source accesses are modelled. -/
structure LanguageModelSAERunnerConfig where
  d_in : ℕ
  d_sae : ℕ
  dtype : String
  device : String
  model_name : String
  hook_point : String
  hook_point_layer : ℕ
  hook_point_head_index : Option ℕ
  activation_fn : String
  apply_b_dec_to_input : Bool
  finetuning_method : Option String
  sae_lens_training_version : Option String
  mse_loss_normalization : Option String
  l1_coefficient : ℝ
  lp_norm : ℝ
  scale_sparsity_penalty_by_decoder_norm : Bool
  use_ghost_grads : Bool
  noise_scale : ℝ
  normalize_sae_decoder : Bool
  decoder_orthogonal_init : Bool
  decoder_heuristic_init : Bool
  init_encoder_as_decoder_transpose : Bool
  act_store_device : String

/-- State of a `SparseAutoencoderBase` instance: parameter tensors, their
autograd gradients (`None` before a backward pass), the configuration
attributes set by `__init__`, and the `nn.Module` training flag.

`scaling_factor` is only created by `initialize_weights_basic` when
`uses_scaling_factor` is set; since `apply_scaling_factor` ignores it
otherwise, it is carried unconditionally here.

`cfg` models the `self.cfg` attribute read by `get_config_dict`: no method
of either class ever assigns it, so it is `none` (attribute absent) on every
instance the source constructs. -/
structure SparseAutoencoderBase (d_in d_sae : ℕ) where
  W_enc : Fin d_in → Fin d_sae → ℝ
  b_enc : Fin d_sae → ℝ
  W_dec : Fin d_sae → Fin d_in → ℝ
  b_dec : Fin d_in → ℝ
  scaling_factor : Fin d_sae → ℝ
  W_enc_grad : Option (Fin d_in → Fin d_sae → ℝ)
  b_enc_grad : Option (Fin d_sae → ℝ)
  W_dec_grad : Option (Fin d_sae → Fin d_in → ℝ)
  b_dec_grad : Option (Fin d_in → ℝ)
  scaling_factor_grad : Option (Fin d_sae → ℝ)
  activation_fn_str : String
  activation_fn : ℝ → ℝ
  apply_b_dec_to_input : Bool
  uses_scaling_factor : Bool
  model_name : String
  hook_point : String
  hook_point_layer : ℕ
  hook_point_head_index : Option ℕ
  dataset_name : String
  prepend_bos : Bool
  context_size : ℕ
  dtype : String
  device : String
  sae_lens_training_version : Option String
  training : Bool
  cfg : Option LanguageModelSAERunnerConfig

/-- State of a `TrainingSparseAutoencoder`: the base state plus the training
attributes its `__init__` sets. -/
structure TrainingSparseAutoencoder (d_in d_sae : ℕ) extends
    SparseAutoencoderBase d_in d_sae where
  mse_loss_normalization : Option String
  l1_coefficient : ℝ
  lp_norm : ℝ
  scale_sparsity_penalty_by_decoder_norm : Bool
  use_ghost_grads : Bool
  noise_scale : ℝ
  normalize_sae_decoder : Bool
  decoder_orthogonal_init : Bool
  decoder_heuristic_init : Bool
  init_encoder_as_decoder_transpose : Bool

/-- Models `x * True = x` and `x * False = 0`: multiplication of a tensor by a Python
bool, used in `x - (self.b_dec * self.apply_b_dec_to_input)`. -/
def boolMul (b : Bool) : ℝ := if b then 1 else 0

namespace SparseAutoencoderBase

variable {d_in d_sae B : ℕ}

/-- Embeds `apply_scaling_factor`, bound in `__init__`: multiply by
`self.scaling_factor` when `uses_scaling_factor` is set, identity otherwise. -/
def apply_scaling_factor (s : SparseAutoencoderBase d_in d_sae)
    (x : Fin B → Fin d_sae → ℝ) : Fin B → Fin d_sae → ℝ :=
  if s.uses_scaling_factor then fun b j => x b j * s.scaling_factor j
  else x

/-- Embeds `SparseAutoencoderBase.encode`: subtract `b_dec` when configured, apply
the encoder affine map, then the activation function. -/
def encode (s : SparseAutoencoderBase d_in d_sae)
    (x : Fin B → Fin d_in → ℝ) : Fin B → Fin d_sae → ℝ :=
  let sae_in : Fin B → Fin d_in → ℝ :=
    fun b i => x b i - s.b_dec i * boolMul s.apply_b_dec_to_input
  let hidden_pre : Fin B → Fin d_sae → ℝ :=
    fun b j => (∑ i, sae_in b i * s.W_enc i j) + s.b_enc j
  fun b j => s.activation_fn (hidden_pre b j)

/-- Embeds `SparseAutoencoderBase.decode`: optional scaling, decoder matrix, plus
decoder bias. -/
def decode (s : SparseAutoencoderBase d_in d_sae)
    (feature_acts : Fin B → Fin d_sae → ℝ) : Fin B → Fin d_in → ℝ :=
  fun b i => (∑ j, s.apply_scaling_factor feature_acts b j * s.W_dec j i)
    + s.b_dec i

/-- Embeds `SparseAutoencoderBase.forward`, which is decode after encode. -/
def forward (s : SparseAutoencoderBase d_in d_sae)
    (x : Fin B → Fin d_in → ℝ) : Fin B → Fin d_in → ℝ :=
  s.decode (s.encode x)

end SparseAutoencoderBase

/-- Embeds `SparseAutoencoderBase.__init__` together with `initialize_weights_basic`.
The Kaiming-uniform draws for `W_enc` and `W_dec` are passed in as `W_enc0`
and `W_dec0`.  Biases start at zero, `scaling_factor` at all-ones,
gradients unpopulated, the `nn.Module` training flag at its default `True`,
and no method ever assigns `self.cfg`, so `cfg := none`. -/
def SparseAutoencoderBase.init
    (d_in d_sae : ℕ) (dtype device model_name hook_point : String)
    (hook_point_layer : ℕ) (hook_point_head_index : Option ℕ)
    (activation_fn_str : String) (activation_fn : ℝ → ℝ)
    (apply_b_dec_to_input uses_scaling_factor : Bool)
    (sae_lens_training_version : Option String) (prepend_bos : Bool)
    (dataset_path : String) (context_size : ℕ)
    (W_enc0 : Fin d_in → Fin d_sae → ℝ) (W_dec0 : Fin d_sae → Fin d_in → ℝ) :
    SparseAutoencoderBase d_in d_sae where
  W_enc := W_enc0
  b_enc := fun _ => 0
  W_dec := W_dec0
  b_dec := fun _ => 0
  scaling_factor := fun _ => 1
  W_enc_grad := none
  b_enc_grad := none
  W_dec_grad := none
  b_dec_grad := none
  scaling_factor_grad := none
  activation_fn_str := activation_fn_str
  activation_fn := activation_fn
  apply_b_dec_to_input := apply_b_dec_to_input
  uses_scaling_factor := uses_scaling_factor
  model_name := model_name
  hook_point := hook_point
  hook_point_layer := hook_point_layer
  hook_point_head_index := hook_point_head_index
  dataset_name := dataset_path
  prepend_bos := prepend_bos
  context_size := context_size
  dtype := dtype
  device := device
  sae_lens_training_version := sae_lens_training_version
  training := true
  cfg := none

/-- The key/value map written to `cfg.json` by `get_config_dict`. -/
structure ConfigDict where
  d_in : ℕ
  d_sae : ℕ
  dtype : String
  device : String
  model_name : String
  hook_point : String
  hook_point_layer : ℕ
  hook_point_head_index : Option ℕ
  activation_fn : String
  act_store_device : String
  apply_b_dec_to_input : Bool
  uses_scaling_factor : Bool
  sae_lens_training_version : Option String
  prepend_bos : Bool
  dataset_name : String

/-- The parameter tensors written to `sae_weights.safetensors`
(`self.state_dict()`): the scaling factor entry is present exactly when
`uses_scaling_factor` is set. -/
structure StateDict (d_in d_sae : ℕ) where
  W_enc : Fin d_in → Fin d_sae → ℝ
  b_enc : Fin d_sae → ℝ
  W_dec : Fin d_sae → Fin d_in → ℝ
  b_dec : Fin d_in → ℝ
  scaling_factor : Option (Fin d_sae → ℝ)

/-- The two (or three) artifacts `save_model` writes into the directory. -/
structure SavedCheckpoint (d_in d_sae : ℕ) where
  sae_weights : StateDict d_in d_sae
  cfg_json : ConfigDict
  sparsity : Option (Fin d_sae → ℝ)

namespace SparseAutoencoderBase

variable {d_in d_sae : ℕ}

/-- Embeds `self.state_dict()`: the registered parameters by name. -/
def state_dict (s : SparseAutoencoderBase d_in d_sae) : StateDict d_in d_sae where
  W_enc := s.W_enc
  b_enc := s.b_enc
  W_dec := s.W_dec
  b_dec := s.b_dec
  scaling_factor := if s.uses_scaling_factor then some s.scaling_factor else none

/-- Embeds `SparseAutoencoderBase.get_config_dict`.  The entry
`"act_store_device": str(self.cfg.act_store_device)` reads the attribute
`self.cfg`, which no method of either class ever assigns; on an instance
where it is absent the lookup raises `AttributeError`, embedded as
`Except.error`. -/
def get_config_dict (s : SparseAutoencoderBase d_in d_sae) :
    Except String ConfigDict :=
  match s.cfg with
  | none => .error cfgAttributeErrorMsg
  | some c => .ok
      { d_in := d_in
        d_sae := d_sae
        dtype := s.dtype
        device := s.device
        model_name := s.model_name
        hook_point := s.hook_point
        hook_point_layer := s.hook_point_layer
        hook_point_head_index := s.hook_point_head_index
        activation_fn := s.activation_fn_str
        act_store_device := c.act_store_device
        apply_b_dec_to_input := s.apply_b_dec_to_input
        uses_scaling_factor := s.uses_scaling_factor
        sae_lens_training_version := s.sae_lens_training_version
        prepend_bos := s.prepend_bos
        dataset_name := s.dataset_name }

/-- Embeds `SparseAutoencoderBase.save_model`: writes the state dict, then
`get_config_dict`, then the optional sparsity tensor.  An exception raised
by `get_config_dict` propagates and aborts the save. -/
def save_model (s : SparseAutoencoderBase d_in d_sae)
    (sparsity : Option (Fin d_sae → ℝ)) :
    Except String (SavedCheckpoint d_in d_sae) := do
  let weights := s.state_dict
  let config ← s.get_config_dict
  .ok { sae_weights := weights, cfg_json := config, sparsity := sparsity }

end SparseAutoencoderBase

/-- An entry of the pretrained-SAE directory
(`get_pretrained_saes_directory()`, external to the embedded file):
repository id, map from SAE id to a path, and an optional conversion
procedure name. -/
structure PretrainedSAEInfo where
  repo_id : String
  saes_map : String → Option String
  conversion_func : Option String

/-- Embeds `sae_info.conversion_func or "sae_lens"`: Python `or` falls through on
`None` and on the empty string (both falsy). -/
def resolveConversionLoaderName (info : PretrainedSAEInfo) : String :=
  match info.conversion_func with
  | none => saeLensLoaderName
  | some s => if s = "" then saeLensLoaderName else s

/-- Embeds `SparseAutoencoderBase.from_pretrained`, with its two external
collaborators as parameters: `saeDirectory` models
`get_pretrained_saes_directory()` and `loaders` models
`NAMED_PRETRAINED_SAE_LOADERS`.  A loader, when invoked, receives the
repository id and path and produces the downstream result (of abstract type
`α`, since everything past the guards is external loading).  The second
component of the result counts how many times a conversion loader was
invoked, so that "no load attempted" is the statement that it is `0`. -/
def from_pretrained {α : Type} (saeDirectory : String → Option PretrainedSAEInfo)
    (loaders : String → Option (String → String → α))
    (release sae_id : String) : Except String α × ℕ :=
  match saeDirectory release with
  | none => (.error (releaseNotFoundMsg release), 0)
  | some sae_info =>
    match sae_info.saes_map sae_id with
    | none => (.error (idNotFoundMsg sae_id release), 0)
    | some hf_path =>
      let conversion_loader_name := resolveConversionLoaderName sae_info
      match loaders conversion_loader_name with
      | none => (.error (conversionNotFoundMsg conversion_loader_name), 0)
      | some conversion_loader =>
          (.ok (conversion_loader sae_info.repo_id hf_path), 1)

/-- The named tuple returned by `TrainingSparseAutoencoder.forward`. -/
structure ForwardOutput (B d_in d_sae : ℕ) where
  sae_out : Fin B → Fin d_in → ℝ
  feature_acts : Fin B → Fin d_sae → ℝ
  loss : ℝ
  mse_loss : ℝ
  l1_loss : ℝ
  ghost_grad_loss : ℝ

namespace TrainingSparseAutoencoder

variable {d_in d_sae B N : ℕ}

/-- Embeds `TrainingSparseAutoencoder._encode_with_hidden_pre`.  The
`torch.randn_like(hidden_pre)` draw is the explicit argument `eps`; the
source multiplies it by `self.noise_scale * self.training`, where the
Python bool `self.training` acts as `1`/`0`. -/
def encode_with_hidden_pre (s : TrainingSparseAutoencoder d_in d_sae)
    (x : Fin B → Fin d_in → ℝ) (eps : Fin B → Fin d_sae → ℝ) :
    (Fin B → Fin d_sae → ℝ) × (Fin B → Fin d_sae → ℝ) :=
  let sae_in : Fin B → Fin d_in → ℝ :=
    fun b i => x b i - s.b_dec i * boolMul s.apply_b_dec_to_input
  let hidden_pre : Fin B → Fin d_sae → ℝ :=
    fun b j => (∑ i, sae_in b i * s.W_enc i j) + s.b_enc j
  let noisy_hidden_pre : Fin B → Fin d_sae → ℝ :=
    fun b j => hidden_pre b j + eps b j * s.noise_scale * boolMul s.training
  (fun b j => s.activation_fn (noisy_hidden_pre b j), hidden_pre)

/-- Embeds `TrainingSparseAutoencoder.encode`: first component of
`_encode_with_hidden_pre`. -/
def encode (s : TrainingSparseAutoencoder d_in d_sae)
    (x : Fin B → Fin d_in → ℝ) (eps : Fin B → Fin d_sae → ℝ) :
    Fin B → Fin d_sae → ℝ :=
  (s.encode_with_hidden_pre x eps).1

/-- Embeds `get_sparsity_loss_term_standard`: per-item Lp norm of the feature
activations. -/
def get_sparsity_loss_term_standard (s : TrainingSparseAutoencoder d_in d_sae)
    (feature_acts : Fin B → Fin d_sae → ℝ) : Fin B → ℝ :=
  fun b => lpNorm s.lp_norm (feature_acts b)

/-- Embeds `get_sparsity_loss_term_decoder_norm`: feature activations weighted
elementwise by the L2 norm of the matching decoder row, then the per-item
Lp norm. -/
def get_sparsity_loss_term_decoder_norm (s : TrainingSparseAutoencoder d_in d_sae)
    (feature_acts : Fin B → Fin d_sae → ℝ) : Fin B → ℝ :=
  fun b => lpNorm s.lp_norm (fun j => feature_acts b j * l2norm (s.W_dec j))

/-- The sparsity-term policy bound once in `__init__`:
`get_sparsity_loss_term_decoder_norm` when
`scale_sparsity_penalty_by_decoder_norm` is set, else the standard term. -/
def get_sparsity_loss_term (s : TrainingSparseAutoencoder d_in d_sae)
    (feature_acts : Fin B → Fin d_sae → ℝ) : Fin B → ℝ :=
  if s.scale_sparsity_penalty_by_decoder_norm then
    s.get_sparsity_loss_term_decoder_norm feature_acts
  else s.get_sparsity_loss_term_standard feature_acts

/-- Embeds `_per_item_mse_loss_with_target_norm`: elementwise squared error,
divided in `"dense_batch"` mode by the L2 norm of the batch-mean-centered
target row plus `1e-6`. -/
def per_item_mse_loss_with_target_norm (preds target : Fin B → Fin d_in → ℝ)
    (mse_loss_normalization : Option String) : Fin B → Fin d_in → ℝ :=
  if mse_loss_normalization = some denseBatchMode then
    fun b i =>
      (preds b i - target b i) ^ 2 /
        (l2norm (fun j => target b j - (∑ b2, target b2 j) / (B : ℝ)) + 1 / 1000000)
  else fun b i => (preds b i - target b i) ^ 2

/-- Embeds `calculate_ghost_grad_loss`.  `detach()` is the identity at the value
level; `hidden_pre[:, mask]` / `W_dec[mask, :]` select the masked rows, so
the masked matrix product is the sum over masked indices. -/
def calculate_ghost_grad_loss (s : TrainingSparseAutoencoder d_in d_sae)
    (x sae_out per_item_mse_loss : Fin B → Fin d_in → ℝ)
    (hidden_pre : Fin B → Fin d_sae → ℝ) (dead_neuron_mask : Fin d_sae → Bool) : ℝ :=
  let residual : Fin B → Fin d_in → ℝ := fun b i => x b i - sae_out b i
  let l2_norm_residual : Fin B → ℝ := fun b => l2norm (residual b)
  let ghost_out : Fin B → Fin d_in → ℝ := fun b i =>
    ∑ j, if dead_neuron_mask j then Real.exp (hidden_pre b j) * s.W_dec j i else 0
  let l2_norm_ghost_out : Fin B → ℝ := fun b => l2norm (ghost_out b)
  let norm_scaling_factor : Fin B → ℝ :=
    fun b => l2_norm_residual b / (1 / 1000000 + l2_norm_ghost_out b * 2)
  let ghost_out2 : Fin B → Fin d_in → ℝ :=
    fun b i => ghost_out b i * norm_scaling_factor b
  let per_item_mse_loss_ghost_resid :=
    per_item_mse_loss_with_target_norm ghost_out2 residual s.mse_loss_normalization
  let mse_rescaling_factor : Fin B → Fin d_in → ℝ := fun b i =>
    per_item_mse_loss b i / (per_item_mse_loss_ghost_resid b i + 1 / 1000000)
  (∑ b, ∑ i, mse_rescaling_factor b i * per_item_mse_loss_ghost_resid b i) /
    ((B : ℝ) * (d_in : ℝ))

/-- Embeds `TrainingSparseAutoencoder.forward`.  The ghost-gradient term is gated
on `use_ghost_grads and self.training and dead_neuron_mask is not None and
dead_neuron_mask.sum() > 0`, and is the float `0` otherwise. -/
def forward (s : TrainingSparseAutoencoder d_in d_sae)
    (x : Fin B → Fin d_in → ℝ) (eps : Fin B → Fin d_sae → ℝ)
    (dead_neuron_mask : Option (Fin d_sae → Bool)) : ForwardOutput B d_in d_sae :=
  let fh := s.encode_with_hidden_pre x eps
  let feature_acts := fh.1
  let hidden_pre := fh.2
  let sae_out := s.toSparseAutoencoderBase.decode feature_acts
  let per_item_mse_loss :=
    per_item_mse_loss_with_target_norm sae_out x s.mse_loss_normalization
  let ghost_grad_loss : ℝ :=
    match dead_neuron_mask with
    | some m =>
        if s.use_ghost_grads ∧ s.training ∧ 0 < maskSum m then
          s.calculate_ghost_grad_loss x sae_out per_item_mse_loss hidden_pre m
        else 0
    | none => 0
  let mse_loss := (∑ b, ∑ i, per_item_mse_loss b i) / (B : ℝ)
  let sparsity := s.get_sparsity_loss_term feature_acts
  let l1_loss := (∑ b, s.l1_coefficient * sparsity b) / (B : ℝ)
  let loss := mse_loss + l1_loss + ghost_grad_loss
  { sae_out := sae_out
    feature_acts := feature_acts
    loss := loss
    mse_loss := mse_loss
    l1_loss := l1_loss
    ghost_grad_loss := ghost_grad_loss }

/-- Embeds `set_decoder_norm_to_unit_norm`: divide every decoder row by its own L2
norm (`W_dec.data /= torch.norm(W_dec.data, dim=1, keepdim=True)`). -/
def set_decoder_norm_to_unit_norm (s : TrainingSparseAutoencoder d_in d_sae) :
    TrainingSparseAutoencoder d_in d_sae :=
  { s with W_dec := fun j i => s.W_dec j i / l2norm (s.W_dec j) }

/-- Embeds `initialize_decoder_norm_constant_norm`: normalize every decoder row to
unit norm, then multiply by `norm` (source default `0.1`). -/
def initialize_decoder_norm_constant_norm (s : TrainingSparseAutoencoder d_in d_sae)
    (norm : ℝ) : TrainingSparseAutoencoder d_in d_sae :=
  let s1 :=
    { s with W_dec := fun j i => s.W_dec j i / l2norm (s.W_dec j) }
  { s1 with W_dec := fun j i => s1.W_dec j i * norm }

/-- Embeds `initialize_weights_complex`.  The random draws it consumes are passed
in explicitly: `orth` is the result of `nn.init.orthogonal_` on the decoder,
`rnd` the `torch.rand` draw of the heuristic branch, and `kai` the fresh
Kaiming-uniform draw of the non-transpose encoder branch.  The decoder
branch is first-match-wins (orthogonal, heuristic, unit-norm, none); the
encoder is then the decoder transpose or the fresh draw; finally the
unit-norm renormalization is re-applied when `normalize_sae_decoder` is
set. -/
def initialize_weights_complex (s : TrainingSparseAutoencoder d_in d_sae)
    (orth : Fin d_sae → Fin d_in → ℝ) (rnd : Fin d_sae → Fin d_in → ℝ)
    (kai : Fin d_in → Fin d_sae → ℝ) : TrainingSparseAutoencoder d_in d_sae :=
  let s1 :=
    if s.decoder_orthogonal_init then { s with W_dec := orth }
    else if s.decoder_heuristic_init then
      initialize_decoder_norm_constant_norm { s with W_dec := rnd } (1 / 10)
    else if s.normalize_sae_decoder then set_decoder_norm_to_unit_norm s
    else s
  let s2 :=
    if s.init_encoder_as_decoder_transpose then
      { s1 with W_enc := fun i j => s1.W_dec j i }
    else { s1 with W_enc := kai }
  if s.normalize_sae_decoder then set_decoder_norm_to_unit_norm s2 else s2

/-- Embeds `TrainingSparseAutoencoder.__init__`: base construction from the runner
config (`uses_scaling_factor` is tied to `finetuning_method` being set),
the training attributes, then `initialize_weights_complex`.
`activation_fn` is the callable `get_activation_fn(cfg.activation_fn)`
resolves to (external module), passed in explicitly, as are all random
draws. -/
def init (cfg : LanguageModelSAERunnerConfig) (activation_fn : ℝ → ℝ)
    (W_enc0 : Fin cfg.d_in → Fin cfg.d_sae → ℝ)
    (W_dec0 : Fin cfg.d_sae → Fin cfg.d_in → ℝ)
    (orth : Fin cfg.d_sae → Fin cfg.d_in → ℝ)
    (rnd : Fin cfg.d_sae → Fin cfg.d_in → ℝ)
    (kai : Fin cfg.d_in → Fin cfg.d_sae → ℝ) :
    TrainingSparseAutoencoder cfg.d_in cfg.d_sae :=
  let base := SparseAutoencoderBase.init cfg.d_in cfg.d_sae cfg.dtype cfg.device
    cfg.model_name cfg.hook_point cfg.hook_point_layer cfg.hook_point_head_index
    cfg.activation_fn activation_fn cfg.apply_b_dec_to_input
    cfg.finetuning_method.isSome cfg.sae_lens_training_version
    true datasetUnknown 256 W_enc0 W_dec0
  let s : TrainingSparseAutoencoder cfg.d_in cfg.d_sae :=
    { base with
      mse_loss_normalization := cfg.mse_loss_normalization
      l1_coefficient := cfg.l1_coefficient
      lp_norm := cfg.lp_norm
      scale_sparsity_penalty_by_decoder_norm :=
        cfg.scale_sparsity_penalty_by_decoder_norm
      use_ghost_grads := cfg.use_ghost_grads
      noise_scale := cfg.noise_scale
      normalize_sae_decoder := cfg.normalize_sae_decoder
      decoder_orthogonal_init := cfg.decoder_orthogonal_init
      decoder_heuristic_init := cfg.decoder_heuristic_init
      init_encoder_as_decoder_transpose := cfg.init_encoder_as_decoder_transpose }
  initialize_weights_complex s orth rnd kai

/-- Embeds `initialize_b_dec_with_precalculated`: set `b_dec.data` to the supplied
vector (cast to the model dtype/device, an identity here). -/
def initialize_b_dec_with_precalculated (s : TrainingSparseAutoencoder d_in d_sae)
    (origin : Fin d_in → ℝ) : TrainingSparseAutoencoder d_in d_sae :=
  { s with b_dec := origin }

/-- Embeds `initialize_b_dec_with_mean`: set `b_dec.data` to the coordinate-wise
mean over the batch of sample activations (the printed distance diagnostics
have no state effect). -/
def initialize_b_dec_with_mean (s : TrainingSparseAutoencoder d_in d_sae)
    (all_activations : Fin N → Fin d_in → ℝ) : TrainingSparseAutoencoder d_in d_sae :=
  { s with b_dec := fun i => (∑ b, all_activations b i) / (N : ℝ) }

/-- Embeds `remove_gradient_parallel_to_decoder_directions`: asserts the decoder
gradient is populated, then subtracts from it, per row, the component
parallel to that decoder row (`(grad_j . W_dec_j) * W_dec_j`). -/
def remove_gradient_parallel_to_decoder_directions
    (s : TrainingSparseAutoencoder d_in d_sae) :
    Except String (TrainingSparseAutoencoder d_in d_sae) :=
  match s.W_dec_grad with
  | none => .error gradAssertionErrorMsg
  | some g =>
      .ok { s with W_dec_grad := some (fun j i =>
        g j i - (∑ k, g j k * s.W_dec j k) * s.W_dec j i) }

end TrainingSparseAutoencoder

/-- Embeds `torch.nn.ReLU`, the callable `get_activation_fn "relu"` resolves to. -/
def relu (x : ℝ) : ℝ := max x 0

/-- String used as the dtype of the demo instances. -/
def demoDtype : String := "torch.float32"

/-- String used as the device of the demo instances. -/
def demoDevice : String := "cpu"

/-- String used as the host-model name of the demo instances. -/
def demoModelName : String := "gelu-2l"

/-- String used as the hook point of the demo instances. -/
def demoHookPoint : String := "blocks.0.hook_resid_pre"

/-- String naming the ReLU activation. -/
def reluStr : String := "relu"

/-- Release identifier used to exercise `from_pretrained`. -/
def demoRelease : String := "gpt2-small-res-jb"

/-- SAE (variant) identifier used to exercise `from_pretrained`. -/
def demoSaeId : String := "blocks.0.hook_resid_pre"

/-- Repository path used to exercise `from_pretrained`. -/
def demoSaePath : String := "v5_32k/resid_pre_0"

/-- Repository identifier used to exercise `from_pretrained`. -/
def demoRepoId : String := "jbloom/GPT2-Small-SAEs"

/-- A directory entry whose saes map is empty. -/
def demoInfoEmptyMap : PretrainedSAEInfo where
  repo_id := demoRepoId
  saes_map := fun _ => none
  conversion_func := none

/-- A directory entry that maps every SAE id to `demoSaePath` and names no
conversion procedure (so the default loader name is resolved). -/
def demoInfoWithPath : PretrainedSAEInfo where
  repo_id := demoRepoId
  saes_map := fun _ => some demoSaePath
  conversion_func := none

/-- A concrete freshly-constructed `SparseAutoencoderBase` (zero draws for
the Kaiming-uniform initializations), used to evaluate the persistence
path. -/
def demoBase : SparseAutoencoderBase 4 8 :=
  SparseAutoencoderBase.init 4 8 demoDtype demoDevice demoModelName
    demoHookPoint 0 none reluStr relu true false none true
    datasetUnknown 256 (fun _ _ => 0) (fun _ _ => 0)

/-- A concrete `TrainingSparseAutoencoder` state with `d_in = 1`,
`d_sae = 2`, non-uniform decoder row norms (1 and 2), `lp_norm = 1`,
`noise_scale = 0` and the training flag off. -/
def demoTSAE : TrainingSparseAutoencoder 1 2 where
  W_enc := fun _ _ => 1
  b_enc := fun _ => 0
  W_dec := fun j _ => if j = 0 then 1 else 2
  b_dec := fun _ => 5
  scaling_factor := fun _ => 1
  W_enc_grad := none
  b_enc_grad := none
  W_dec_grad := none
  b_dec_grad := none
  scaling_factor_grad := none
  activation_fn_str := "relu"
  activation_fn := relu
  apply_b_dec_to_input := true
  uses_scaling_factor := false
  model_name := "gpt2"
  hook_point := "blocks.0.hook_resid_pre"
  hook_point_layer := 0
  hook_point_head_index := none
  dataset_name := "unknown"
  prepend_bos := true
  context_size := 256
  dtype := "torch.float32"
  device := "cpu"
  sae_lens_training_version := none
  training := false
  cfg := none
  mse_loss_normalization := none
  l1_coefficient := 1
  lp_norm := 1
  scale_sparsity_penalty_by_decoder_norm := false
  use_ghost_grads := false
  noise_scale := 0
  normalize_sae_decoder := false
  decoder_orthogonal_init := false
  decoder_heuristic_init := false
  init_encoder_as_decoder_transpose := false

/-- The state of `demoTSAE` after a backward pass has populated the decoder gradient
with the constant tensor 3. -/
def demoGradTSAE : TrainingSparseAutoencoder 1 2 :=
  { demoTSAE with W_dec_grad := some (fun _ _ => 3) }

/-- A concrete runner config with `d_in = d_sae = 1` and BOTH
`decoder_heuristic_init` and `normalize_sae_decoder` requested. -/
def cfgHeuristicAndNormalize : LanguageModelSAERunnerConfig where
  d_in := 1
  d_sae := 1
  dtype := "torch.float32"
  device := "cpu"
  model_name := "gpt2"
  hook_point := "blocks.0.hook_resid_pre"
  hook_point_layer := 0
  hook_point_head_index := none
  activation_fn := "relu"
  apply_b_dec_to_input := true
  finetuning_method := none
  sae_lens_training_version := none
  mse_loss_normalization := none
  l1_coefficient := 1
  lp_norm := 1
  scale_sparsity_penalty_by_decoder_norm := false
  use_ghost_grads := false
  noise_scale := 0
  normalize_sae_decoder := true
  decoder_orthogonal_init := false
  decoder_heuristic_init := true
  init_encoder_as_decoder_transpose := false
  act_store_device := "cpu"

/-- The same runner config with only `normalize_sae_decoder` requested. -/
def cfgNormalizeOnly : LanguageModelSAERunnerConfig :=
  { cfgHeuristicAndNormalize with
    normalize_sae_decoder := true
    decoder_heuristic_init := false }

/-- The same runner config with only `decoder_heuristic_init` requested. -/
def cfgHeuristicOnly : LanguageModelSAERunnerConfig :=
  { cfgHeuristicAndNormalize with
    normalize_sae_decoder := false
    decoder_heuristic_init := true }

end

/-! ## Helper lemmas about the norms used by the embedded code -/

theorem l2norm_nonneg {n : ℕ} (v : Fin n → ℝ) : 0 ≤ l2norm v :=
  Real.sqrt_nonneg _

theorem sum_sq_nonneg {n : ℕ} (v : Fin n → ℝ) : 0 ≤ ∑ j, v j ^ 2 :=
  Finset.sum_nonneg fun j _ => sq_nonneg (v j)

theorem l2norm_mul_right {n : ℕ} (v : Fin n → ℝ) (a : ℝ) :
    l2norm (fun j => v j * a) = l2norm v * |a| := by
  unfold l2norm
  rw [show (∑ j, (v j * a) ^ 2) = (∑ j, v j ^ 2) * a ^ 2 by
    rw [Finset.sum_mul]; exact Finset.sum_congr rfl fun j _ => mul_pow _ _ _]
  rw [Real.sqrt_mul (sum_sq_nonneg v), Real.sqrt_sq_eq_abs]

theorem l2norm_unit {n : ℕ} (v : Fin n → ℝ) (h : l2norm v ≠ 0) :
    l2norm (fun j => v j / l2norm v) = 1 := by
  have hpos : 0 < l2norm v := lt_of_le_of_ne (l2norm_nonneg v) (Ne.symm h)
  rw [show (fun j => v j / l2norm v) = fun j => v j * (l2norm v)⁻¹ by
    funext j; rw [div_eq_mul_inv]]
  rw [l2norm_mul_right, abs_inv, abs_of_pos hpos, mul_inv_cancel₀ h]

theorem l2norm_single (v : Fin 1 → ℝ) : l2norm v = |v 0| := by
  unfold l2norm
  rw [Fin.sum_univ_one, Real.sqrt_sq_eq_abs]

theorem lpNorm_single_spike {n : ℕ} (p a : ℝ) (hp : 0 < p) (i : Fin n) :
    lpNorm p (fun j => if j = i then a else 0) = |a| := by
  unfold lpNorm
  have hsum : (∑ j, |if j = i then a else 0| ^ p) = |a| ^ p := by
    rw [Finset.sum_eq_single i]
    · rw [if_pos rfl]
    · intro b _ hb
      rw [if_neg hb, abs_zero, Real.zero_rpow (ne_of_gt hp)]
    · intro h
      exact absurd (Finset.mem_univ i) h
  rw [hsum, ← Real.rpow_mul (abs_nonneg a), mul_one_div_cancel (ne_of_gt hp),
    Real.rpow_one]

/-- The decoder matrix produced by `initialize_weights_complex`, written
out branch by branch (the encoder step does not touch `W_dec`). -/
theorem initialize_weights_complex_W_dec {d_in d_sae : ℕ}
    (s : TrainingSparseAutoencoder d_in d_sae)
    (orth rnd : Fin d_sae → Fin d_in → ℝ) (kai : Fin d_in → Fin d_sae → ℝ) :
    (s.initialize_weights_complex orth rnd kai).W_dec =
      (let w1 : Fin d_sae → Fin d_in → ℝ :=
        if s.decoder_orthogonal_init then orth
        else if s.decoder_heuristic_init then
          fun j i => rnd j i / l2norm (rnd j) * (1 / 10)
        else if s.normalize_sae_decoder then
          fun j i => s.W_dec j i / l2norm (s.W_dec j)
        else s.W_dec
      if s.normalize_sae_decoder then fun j i => w1 j i / l2norm (w1 j)
      else w1) := by
  unfold TrainingSparseAutoencoder.initialize_weights_complex
    TrainingSparseAutoencoder.set_decoder_norm_to_unit_norm
    TrainingSparseAutoencoder.initialize_decoder_norm_constant_norm
  by_cases h1 : s.decoder_orthogonal_init <;>
    by_cases h2 : s.decoder_heuristic_init <;>
      by_cases h3 : s.normalize_sae_decoder <;>
        by_cases h4 : s.init_encoder_as_decoder_transpose <;>
          simp [h1, h2, h3, h4]

theorem l2norm_unit_mul {n : ℕ} (v : Fin n → ℝ) (a : ℝ) (h : l2norm v ≠ 0) :
    l2norm (fun j => v j / l2norm v * a) = |a| := by
  have key := l2norm_mul_right (fun j => v j / l2norm v) a
  rw [l2norm_unit v h, one_mul] at key
  exact key

/-- After `initialize_weights_complex`, every decoder row has unit L2 norm
whenever `normalize_sae_decoder` is set (for nonzero rows/draws): the final
renormalization step guarantees it over every decoder branch. -/
theorem complex_rows_unit {d_in d_sae : ℕ}
    (s : TrainingSparseAutoencoder d_in d_sae)
    (orth rnd : Fin d_sae → Fin d_in → ℝ) (kai : Fin d_in → Fin d_sae → ℝ)
    (hW : ∀ j, l2norm (s.W_dec j) ≠ 0) (horth : ∀ j, l2norm (orth j) ≠ 0)
    (hrnd : ∀ j, l2norm (rnd j) ≠ 0) (hn : s.normalize_sae_decoder = true)
    (j : Fin d_sae) :
    l2norm ((s.initialize_weights_complex orth rnd kai).W_dec j) = 1 := by
  rw [initialize_weights_complex_W_dec]
  simp only [hn, if_true]
  refine l2norm_unit _ ?_
  by_cases h1 : s.decoder_orthogonal_init
  · simp only [h1, if_true]
    exact horth j
  · by_cases h2 : s.decoder_heuristic_init
    · simp only [h1, h2, if_true, Bool.not_eq_true, if_false, Bool.false_eq_true]
      rw [l2norm_unit_mul _ _ (hrnd j)]
      norm_num
    · simp only [h1, h2, hn, if_true, Bool.not_eq_true, if_false,
        Bool.false_eq_true]
      rw [l2norm_unit _ (hW j)]
      norm_num

/-- After `initialize_weights_complex`, every decoder row has L2 norm `0.1`
when `decoder_heuristic_init` is set and neither the orthogonal branch
(which has priority) nor the final unit-norm renormalization fires. -/
theorem complex_rows_tenth {d_in d_sae : ℕ}
    (s : TrainingSparseAutoencoder d_in d_sae)
    (orth rnd : Fin d_sae → Fin d_in → ℝ) (kai : Fin d_in → Fin d_sae → ℝ)
    (hrnd : ∀ j, l2norm (rnd j) ≠ 0) (hh : s.decoder_heuristic_init = true)
    (ho : s.decoder_orthogonal_init = false) (hn : s.normalize_sae_decoder = false)
    (j : Fin d_sae) :
    l2norm ((s.initialize_weights_complex orth rnd kai).W_dec j) = 1 / 10 := by
  rw [initialize_weights_complex_W_dec]
  simp only [hh, ho, hn, if_true, if_false, Bool.false_eq_true]
  rw [l2norm_unit_mul _ _ (hrnd j)]
  rw [abs_of_pos (show (0 : ℝ) < 1 / 10 by norm_num)]

/-- Unfolding of `TrainingSparseAutoencoder.init`: base construction followed
by the training attributes and `initialize_weights_complex` (definitional). -/
theorem init_def (cfg : LanguageModelSAERunnerConfig) (act : ℝ → ℝ)
    (W_enc0 : Fin cfg.d_in → Fin cfg.d_sae → ℝ)
    (W_dec0 orth rnd : Fin cfg.d_sae → Fin cfg.d_in → ℝ)
    (kai : Fin cfg.d_in → Fin cfg.d_sae → ℝ) :
    TrainingSparseAutoencoder.init cfg act W_enc0 W_dec0 orth rnd kai =
      TrainingSparseAutoencoder.initialize_weights_complex
        { SparseAutoencoderBase.init cfg.d_in cfg.d_sae cfg.dtype cfg.device
            cfg.model_name cfg.hook_point cfg.hook_point_layer
            cfg.hook_point_head_index cfg.activation_fn act
            cfg.apply_b_dec_to_input cfg.finetuning_method.isSome
            cfg.sae_lens_training_version true datasetUnknown 256 W_enc0
            W_dec0 with
          mse_loss_normalization := cfg.mse_loss_normalization
          l1_coefficient := cfg.l1_coefficient
          lp_norm := cfg.lp_norm
          scale_sparsity_penalty_by_decoder_norm :=
            cfg.scale_sparsity_penalty_by_decoder_norm
          use_ghost_grads := cfg.use_ghost_grads
          noise_scale := cfg.noise_scale
          normalize_sae_decoder := cfg.normalize_sae_decoder
          decoder_orthogonal_init := cfg.decoder_orthogonal_init
          decoder_heuristic_init := cfg.decoder_heuristic_init
          init_encoder_as_decoder_transpose :=
            cfg.init_encoder_as_decoder_transpose }
        orth rnd kai :=
  rfl

/-! ## Claim theorems -/

/-- C8: for every `SparseAutoencoderBase` with `uses_scaling_factor = False`,
`decode` on an all-zero feature tensor returns exactly the decoder bias
`b_dec`, broadcast to the batch shape, because `apply_scaling_factor` is the
identity when the scaling-factor feature is disabled. -/
theorem decode_zero_feature_acts_eq_b_dec {d_in d_sae B : ℕ}
    (s : SparseAutoencoderBase d_in d_sae) (h : s.uses_scaling_factor = false) :
    s.decode (fun (_ : Fin B) (_ : Fin d_sae) => 0) = fun _ i => s.b_dec i := by
  funext b i
  simp [SparseAutoencoderBase.decode, SparseAutoencoderBase.apply_scaling_factor, h]

theorem decode_zero_feature_acts_eq_b_dec_witness :
    demoTSAE.toSparseAutoencoderBase.decode (fun (_ : Fin 1) (_ : Fin 2) => 0) =
      fun _ i => demoTSAE.toSparseAutoencoderBase.b_dec i :=
  decode_zero_feature_acts_eq_b_dec demoTSAE.toSparseAutoencoderBase rfl

/-- C2: the `ghost_grad_loss` component of `TrainingSparseAutoencoder.forward`
is exactly 0 whenever the dead-neuron mask is `None`, or the mask has zero
set entries, or the instance is not in training mode, or `use_ghost_grads`
is disabled — each condition independently suffices. -/
theorem forward_ghost_grad_loss_zero {d_in d_sae B : ℕ}
    (s : TrainingSparseAutoencoder d_in d_sae)
    (x : Fin B → Fin d_in → ℝ) (eps : Fin B → Fin d_sae → ℝ)
    (mask : Option (Fin d_sae → Bool)) :
    (mask = none → (s.forward x eps mask).ghost_grad_loss = 0) ∧
    (∀ m, mask = some m → maskSum m = 0 →
      (s.forward x eps mask).ghost_grad_loss = 0) ∧
    (s.training = false → (s.forward x eps mask).ghost_grad_loss = 0) ∧
    (s.use_ghost_grads = false → (s.forward x eps mask).ghost_grad_loss = 0) := by
  refine ⟨?_, ?_, ?_, ?_⟩
  · intro h
    subst h
    rfl
  · intro m hm hsum
    subst hm
    simp [TrainingSparseAutoencoder.forward, hsum]
  · intro h
    cases mask with
    | none => rfl
    | some m => simp [TrainingSparseAutoencoder.forward, h]
  · intro h
    cases mask with
    | none => rfl
    | some m => simp [TrainingSparseAutoencoder.forward, h]

theorem forward_ghost_grad_loss_zero_witness :
    (demoTSAE.forward (fun (_ : Fin 1) (_ : Fin 1) => 1)
        (fun (_ : Fin 1) (_ : Fin 2) => 0) none).ghost_grad_loss = 0 ∧
    (demoTSAE.forward (fun (_ : Fin 1) (_ : Fin 1) => 1)
        (fun (_ : Fin 1) (_ : Fin 2) => 0)
        (some (fun _ => false))).ghost_grad_loss = 0 ∧
    (demoTSAE.forward (fun (_ : Fin 1) (_ : Fin 1) => 1)
        (fun (_ : Fin 1) (_ : Fin 2) => 0)
        (some (fun _ => true))).ghost_grad_loss = 0 ∧
    (({ demoTSAE with training := true } :
        TrainingSparseAutoencoder 1 2).forward
        (fun (_ : Fin 1) (_ : Fin 1) => 1) (fun (_ : Fin 1) (_ : Fin 2) => 0)
        (some (fun _ => true))).ghost_grad_loss = 0 :=
  ⟨(forward_ghost_grad_loss_zero demoTSAE (fun _ _ => 1) (fun _ _ => 0)
      none).1 rfl,
    (forward_ghost_grad_loss_zero demoTSAE (fun _ _ => 1) (fun _ _ => 0)
      (some (fun _ => false))).2.1 (fun _ => false) rfl (by decide),
    (forward_ghost_grad_loss_zero demoTSAE (fun _ _ => 1) (fun _ _ => 0)
      (some (fun _ => true))).2.2.1 rfl,
    (forward_ghost_grad_loss_zero
      { demoTSAE with training := true } (fun _ _ => 1) (fun _ _ => 0)
      (some (fun _ => true))).2.2.2 rfl⟩

/-- C3: with `noise_scale = 0` or the training flag off, the training
encode path `_encode_with_hidden_pre` does not depend on the Gaussian draw:
two calls on the same input return identical feature activations and
identical pre-activations. -/
theorem encode_with_hidden_pre_deterministic {d_in d_sae B : ℕ}
    (s : TrainingSparseAutoencoder d_in d_sae)
    (h : s.noise_scale = 0 ∨ s.training = false)
    (x : Fin B → Fin d_in → ℝ) (eps eps2 : Fin B → Fin d_sae → ℝ) :
    s.encode_with_hidden_pre x eps = s.encode_with_hidden_pre x eps2 := by
  rcases h with h | h <;>
    simp [TrainingSparseAutoencoder.encode_with_hidden_pre, boolMul, h]

theorem encode_with_hidden_pre_deterministic_witness :
    demoTSAE.encode_with_hidden_pre (fun (_ : Fin 1) (_ : Fin 1) => 1)
        (fun _ _ => 5) =
      demoTSAE.encode_with_hidden_pre (fun _ _ => 1) (fun _ _ => 7) :=
  encode_with_hidden_pre_deterministic demoTSAE (Or.inl rfl)
    (fun _ _ => 1) (fun _ _ => 5) (fun _ _ => 7)

/-- C9: with the training flag off, `TrainingSparseAutoencoder.encode`
returns the same feature-activation tensor as `SparseAutoencoderBase.encode`
on the same state: outside training the derived encode path refines the
base encode path exactly. -/
theorem training_encode_refines_base_encode {d_in d_sae B : ℕ}
    (s : TrainingSparseAutoencoder d_in d_sae) (h : s.training = false)
    (x : Fin B → Fin d_in → ℝ) (eps : Fin B → Fin d_sae → ℝ) :
    s.encode x eps = s.toSparseAutoencoderBase.encode x := by
  simp [TrainingSparseAutoencoder.encode,
    TrainingSparseAutoencoder.encode_with_hidden_pre,
    SparseAutoencoderBase.encode, boolMul, h]

theorem training_encode_refines_base_encode_witness :
    demoTSAE.encode (fun (_ : Fin 1) (_ : Fin 1) => 1) (fun _ _ => 9) =
      demoTSAE.toSparseAutoencoderBase.encode (fun _ _ => 1) :=
  training_encode_refines_base_encode demoTSAE rfl (fun _ _ => 1) (fun _ _ => 9)

/-- C10: the two decoder-bias recalibration operations modify only `b_dec`:
`W_enc`, `W_dec`, `b_enc` and `scaling_factor` are unchanged by either
call. -/
theorem b_dec_recalibration_frame {d_in d_sae N : ℕ}
    (s : TrainingSparseAutoencoder d_in d_sae) (origin : Fin d_in → ℝ)
    (all_activations : Fin N → Fin d_in → ℝ) :
    ((s.initialize_b_dec_with_precalculated origin).W_enc = s.W_enc ∧
      (s.initialize_b_dec_with_precalculated origin).W_dec = s.W_dec ∧
      (s.initialize_b_dec_with_precalculated origin).b_enc = s.b_enc ∧
      (s.initialize_b_dec_with_precalculated origin).scaling_factor =
        s.scaling_factor) ∧
    ((s.initialize_b_dec_with_mean all_activations).W_enc = s.W_enc ∧
      (s.initialize_b_dec_with_mean all_activations).W_dec = s.W_dec ∧
      (s.initialize_b_dec_with_mean all_activations).b_enc = s.b_enc ∧
      (s.initialize_b_dec_with_mean all_activations).scaling_factor =
        s.scaling_factor) :=
  ⟨⟨rfl, rfl, rfl, rfl⟩, ⟨rfl, rfl, rfl, rfl⟩⟩

/-- C7: with a populated decoder gradient `g`,
`remove_gradient_parallel_to_decoder_directions` succeeds and replaces only
the gradient of `W_dec` by `g` minus, per row `j`, `(g_j . W_dec_j) * W_dec_j`
(all other fields of the state, parameters and gradients alike, are kept by
the record update); with no gradient present it fails the assertion. -/
theorem remove_gradient_parallel_spec {d_in d_sae : ℕ}
    (s : TrainingSparseAutoencoder d_in d_sae) :
    (∀ g, s.W_dec_grad = some g →
      s.remove_gradient_parallel_to_decoder_directions =
        .ok { s with W_dec_grad := some (fun j i =>
          g j i - (∑ k, g j k * s.W_dec j k) * s.W_dec j i) }) ∧
    (s.W_dec_grad = none →
      s.remove_gradient_parallel_to_decoder_directions =
        .error gradAssertionErrorMsg) := by
  constructor
  · intro g hg
    simp [TrainingSparseAutoencoder.remove_gradient_parallel_to_decoder_directions,
      hg]
  · intro h
    simp [TrainingSparseAutoencoder.remove_gradient_parallel_to_decoder_directions,
      h]

theorem remove_gradient_parallel_spec_witness :
    demoGradTSAE.remove_gradient_parallel_to_decoder_directions =
      .ok { demoGradTSAE with W_dec_grad := some (fun j i =>
        (3 : ℝ) - (∑ k, 3 * demoGradTSAE.W_dec j k) * demoGradTSAE.W_dec j i) } ∧
    demoTSAE.remove_gradient_parallel_to_decoder_directions =
      .error gradAssertionErrorMsg :=
  ⟨(remove_gradient_parallel_spec demoGradTSAE).1 (fun _ _ => 3) rfl,
    (remove_gradient_parallel_spec demoTSAE).2 rfl⟩

/-- C6: `from_pretrained` fails with a lookup error naming the missing
identifier — the release when it is not in the pretrained-SAE directory,
the SAE id when it is not in the saes map of the release, the resolved conversion
loader name when it is not registered — and in each case no conversion
loader is invoked (the invocation count is 0). -/
theorem from_pretrained_lookup_errors {α : Type}
    (saeDirectory : String → Option PretrainedSAEInfo)
    (loaders : String → Option (String → String → α)) (release sae_id : String) :
    (saeDirectory release = none →
      from_pretrained saeDirectory loaders release sae_id =
        (.error (releaseNotFoundMsg release), 0)) ∧
    (∀ info, saeDirectory release = some info → info.saes_map sae_id = none →
      from_pretrained saeDirectory loaders release sae_id =
        (.error (idNotFoundMsg sae_id release), 0)) ∧
    (∀ info path, saeDirectory release = some info →
      info.saes_map sae_id = some path →
      loaders (resolveConversionLoaderName info) = none →
      from_pretrained saeDirectory loaders release sae_id =
        (.error (conversionNotFoundMsg (resolveConversionLoaderName info)),
          0)) := by
  refine ⟨?_, ?_, ?_⟩
  · intro h
    simp [from_pretrained, h]
  · intro info hinfo hmap
    simp [from_pretrained, hinfo, hmap]
  · intro info path hinfo hmap hload
    simp [from_pretrained, hinfo, hmap, hload]

theorem from_pretrained_lookup_errors_witness :
    from_pretrained (fun _ => none)
        (fun _ => (none : Option (String → String → Unit)))
        demoRelease demoSaeId =
      (.error (releaseNotFoundMsg demoRelease), 0) ∧
    from_pretrained (fun _ => some demoInfoEmptyMap)
        (fun _ => (none : Option (String → String → Unit)))
        demoRelease demoSaeId =
      (.error (idNotFoundMsg demoSaeId demoRelease), 0) ∧
    from_pretrained (fun _ => some demoInfoWithPath)
        (fun _ => (none : Option (String → String → Unit)))
        demoRelease demoSaeId =
      (.error (conversionNotFoundMsg
        (resolveConversionLoaderName demoInfoWithPath)), 0) :=
  ⟨(from_pretrained_lookup_errors (fun _ => none) (fun _ => none)
      demoRelease demoSaeId).1 rfl,
    (from_pretrained_lookup_errors (fun _ => some demoInfoEmptyMap)
      (fun _ => none) demoRelease demoSaeId).2.1 demoInfoEmptyMap rfl rfl,
    (from_pretrained_lookup_errors (fun _ => some demoInfoWithPath)
      (fun _ => none) demoRelease demoSaeId).2.2 demoInfoWithPath
      demoSaePath rfl rfl rfl⟩

/-- C1 (code bug): `save_model` on a freshly constructed
`SparseAutoencoderBase` raises before writing `cfg.json`, because
`get_config_dict` reads `self.cfg.act_store_device` and no method of either
class ever assigns `self.cfg`; the save/load round trip therefore cannot
succeed as specified. -/
theorem save_model_fails_on_unset_cfg :
    demoBase.save_model none = .error cfgAttributeErrorMsg :=
  rfl

/-- C4 (amended): immediately after `TrainingSparseAutoencoder`
construction, if `normalize_sae_decoder` was requested every row of `W_dec`
has L2 norm exactly 1 (for nonzero rows/draws); if `decoder_heuristic_init`
was requested and neither `decoder_orthogonal_init` (which takes priority)
nor `normalize_sae_decoder` (whose final renormalization overrides the
target) was, every row of `W_dec` has L2 norm exactly the default target
`0.1`. -/
theorem init_decoder_row_norms (cfg : LanguageModelSAERunnerConfig)
    (act : ℝ → ℝ) (W_enc0 : Fin cfg.d_in → Fin cfg.d_sae → ℝ)
    (W_dec0 orth rnd : Fin cfg.d_sae → Fin cfg.d_in → ℝ)
    (kai : Fin cfg.d_in → Fin cfg.d_sae → ℝ)
    (hW : ∀ j, l2norm (W_dec0 j) ≠ 0) (horth : ∀ j, l2norm (orth j) ≠ 0)
    (hrnd : ∀ j, l2norm (rnd j) ≠ 0) :
    (cfg.normalize_sae_decoder = true → ∀ j,
      l2norm ((TrainingSparseAutoencoder.init cfg act W_enc0 W_dec0 orth rnd
        kai).W_dec j) = 1) ∧
    (cfg.decoder_heuristic_init = true → cfg.decoder_orthogonal_init = false →
      cfg.normalize_sae_decoder = false → ∀ j,
      l2norm ((TrainingSparseAutoencoder.init cfg act W_enc0 W_dec0 orth rnd
        kai).W_dec j) = 1 / 10) := by
  constructor
  · intro hn j
    rw [init_def]
    refine complex_rows_unit _ orth rnd kai ?_ ?_ ?_ hn j
    · exact hW
    · exact horth
    · exact hrnd
  · intro hh ho hn j
    rw [init_def]
    refine complex_rows_tenth _ orth rnd kai ?_ hh ho hn j
    exact hrnd

/-- C4 counterexample: with both `decoder_heuristic_init` and
`normalize_sae_decoder` requested, the decoder rows end at norm 1, not at
the heuristic target `0.1`: the final unit-norm renormalization overrides
the heuristic scaling. -/
theorem init_decoder_row_norms_counterexample :
    cfgHeuristicAndNormalize.decoder_heuristic_init = true ∧
    l2norm ((TrainingSparseAutoencoder.init cfgHeuristicAndNormalize relu
      (fun _ _ => 1) (fun _ _ => 1) (fun _ _ => 1) (fun _ _ => 2)
      (fun _ _ => 1)).W_dec (0 : Fin 1)) ≠ 1 / 10 := by
  refine ⟨rfl, ?_⟩
  have h1 : ∀ j : Fin 1, l2norm (fun _ : Fin 1 => (1 : ℝ)) ≠ 0 := by
    intro j
    rw [l2norm_single]
    norm_num
  have h2 : ∀ j : Fin 1, l2norm (fun _ : Fin 1 => (2 : ℝ)) ≠ 0 := by
    intro j
    rw [l2norm_single]
    norm_num
  have hrow : l2norm ((TrainingSparseAutoencoder.init cfgHeuristicAndNormalize
      relu (fun _ _ => 1) (fun _ _ => 1) (fun _ _ => 1) (fun _ _ => 2)
      (fun _ _ => 1)).W_dec (0 : Fin 1)) = 1 := by
    rw [init_def]
    refine complex_rows_unit _ _ _ _ ?_ ?_ ?_ rfl (0 : Fin 1)
    · exact h1
    · exact h1
    · exact h2
  rw [hrow]
  norm_num

theorem init_decoder_row_norms_witness :
    l2norm ((TrainingSparseAutoencoder.init cfgNormalizeOnly relu
      (fun _ _ => 1) (fun _ _ => 1) (fun _ _ => 1) (fun _ _ => 2)
      (fun _ _ => 1)).W_dec (0 : Fin 1)) = 1 ∧
    l2norm ((TrainingSparseAutoencoder.init cfgHeuristicOnly relu
      (fun _ _ => 1) (fun _ _ => 1) (fun _ _ => 1) (fun _ _ => 2)
      (fun _ _ => 1)).W_dec (0 : Fin 1)) = 1 / 10 := by
  have h1 : ∀ j : Fin 1, l2norm (fun _ : Fin 1 => (1 : ℝ)) ≠ 0 := by
    intro j
    rw [l2norm_single]
    norm_num
  have h2 : ∀ j : Fin 1, l2norm (fun _ : Fin 1 => (2 : ℝ)) ≠ 0 := by
    intro j
    rw [l2norm_single]
    norm_num
  exact ⟨(init_decoder_row_norms cfgNormalizeOnly relu (fun _ _ => 1)
      (fun _ _ => 1) (fun _ _ => 1) (fun _ _ => 2) (fun _ _ => 1)
      h1 h1 h2).1 rfl (0 : Fin 1),
    (init_decoder_row_norms cfgHeuristicOnly relu (fun _ _ => 1)
      (fun _ _ => 1) (fun _ _ => 1) (fun _ _ => 2) (fun _ _ => 1)
      h1 h1 h2).2 rfl rfl rfl (0 : Fin 1)⟩

/-- C5 (amended): the decoder-norm-weighted sparsity term equals the
standard term on every feature tensor whenever every decoder row has L2
norm exactly 1; and whenever the decoder row norms are non-uniform (and
`lp_norm` is positive) there exists a feature tensor on which the two terms
differ (they coincide on e.g. the all-zero tensor, so they do not differ on
every tensor). -/
theorem sparsity_decoder_norm_vs_standard {d_in d_sae B : ℕ}
    (s : TrainingSparseAutoencoder d_in d_sae) :
    (∀ acts : Fin B → Fin d_sae → ℝ, (∀ j, l2norm (s.W_dec j) = 1) →
      s.get_sparsity_loss_term_decoder_norm acts =
        s.get_sparsity_loss_term_standard acts) ∧
    ((∃ i j, l2norm (s.W_dec i) ≠ l2norm (s.W_dec j)) → 0 < s.lp_norm →
      ∃ acts : Fin 1 → Fin d_sae → ℝ,
        s.get_sparsity_loss_term_decoder_norm acts ≠
          s.get_sparsity_loss_term_standard acts) := by
  constructor
  · intro acts h
    funext b
    simp only [TrainingSparseAutoencoder.get_sparsity_loss_term_decoder_norm,
      TrainingSparseAutoencoder.get_sparsity_loss_term_standard, h, mul_one]
  · intro hne hp
    obtain ⟨i0, j0, h0⟩ := hne
    have key : ∃ i, l2norm (s.W_dec i) ≠ 1 := by
      by_contra hc
      push_neg at hc
      exact h0 (by rw [hc i0, hc j0])
    obtain ⟨i, hi⟩ := key
    refine ⟨fun _ j => if j = i then 1 else 0, fun heq => hi ?_⟩
    have hb : lpNorm s.lp_norm
        (fun j => (if j = i then (1 : ℝ) else 0) * l2norm (s.W_dec j)) =
        lpNorm s.lp_norm (fun j => if j = i then (1 : ℝ) else 0) :=
      congrFun heq 0
    rw [show (fun j => (if j = i then (1 : ℝ) else 0) * l2norm (s.W_dec j)) =
        fun j => if j = i then l2norm (s.W_dec i) else 0 by
      funext j
      by_cases hj : j = i
      · subst hj
        rw [if_pos rfl, if_pos rfl, one_mul]
      · rw [if_neg hj, if_neg hj, zero_mul]] at hb
    rw [lpNorm_single_spike _ _ hp i, lpNorm_single_spike _ _ hp i,
      abs_one, abs_of_nonneg (l2norm_nonneg _)] at hb
    exact hb

/-- C5 counterexample: `demoTSAE` has non-uniform decoder row norms (1 and
2), yet on the all-zero feature tensor the decoder-norm-weighted sparsity
term equals the standard one — so non-uniform norms do not make the terms
differ on every feature tensor. -/
theorem sparsity_decoder_norm_vs_standard_counterexample :
    (∃ i j, l2norm (demoTSAE.W_dec i) ≠ l2norm (demoTSAE.W_dec j)) ∧
    demoTSAE.get_sparsity_loss_term_decoder_norm
        (fun (_ : Fin 1) (_ : Fin 2) => 0) =
      demoTSAE.get_sparsity_loss_term_standard (fun _ _ => 0) := by
  constructor
  · refine ⟨0, 1, ?_⟩
    show l2norm (fun _ : Fin 1 => (1 : ℝ)) ≠ l2norm (fun _ : Fin 1 => (2 : ℝ))
    rw [l2norm_single, l2norm_single]
    norm_num
  · funext b
    simp only [TrainingSparseAutoencoder.get_sparsity_loss_term_decoder_norm,
      TrainingSparseAutoencoder.get_sparsity_loss_term_standard, zero_mul]

theorem sparsity_decoder_norm_vs_standard_witness :
    ({ demoTSAE with W_dec := fun _ _ => 1 } :
        TrainingSparseAutoencoder 1 2).get_sparsity_loss_term_decoder_norm
        (fun (_ : Fin 1) (_ : Fin 2) => 3) =
      ({ demoTSAE with
        W_dec := fun _ _ => 1 } :
          TrainingSparseAutoencoder 1 2).get_sparsity_loss_term_standard
        (fun _ _ => 3) ∧
    ∃ acts : Fin 1 → Fin 2 → ℝ,
      demoTSAE.get_sparsity_loss_term_decoder_norm acts ≠
        demoTSAE.get_sparsity_loss_term_standard acts := by
  constructor
  · refine (sparsity_decoder_norm_vs_standard
      { demoTSAE with W_dec := fun _ _ => 1 }).1 (fun _ _ => 3) ?_
    intro j
    show l2norm (fun _ : Fin 1 => (1 : ℝ)) = 1
    rw [l2norm_single]
    norm_num
  · refine (@sparsity_decoder_norm_vs_standard 1 2 1 demoTSAE).2 ⟨0, 1, ?_⟩ ?_
    · show l2norm (fun _ : Fin 1 => (1 : ℝ)) ≠ l2norm (fun _ : Fin 1 => (2 : ℝ))
      rw [l2norm_single, l2norm_single]
      norm_num
    · show (0 : ℝ) < 1
      norm_num

end SAELens
